import Mathlib

/-!
Verification of the `command_runner` module (src/command_runner/__init__.py).

The code is embedded shallowly.  All interaction with the operating system
(the child process, the output queue filled by the `_read_pipe` thread, the
wall clock, `open`) is reified as an explicit input trace, and the Python
control flow of `_read_pipe`, `_poll_process` and `command_runner` is
translated line by line into pure Lean functions over that trace.  Side
effects (logging, kill signals, file-sink writes/opens/closes) are collected
in an effect list so that theorems can speak about them.
-/

namespace CommandRunner

/-- Kill-related operations the supervisor can perform on the child process.
`windowsChildKill` is `_windows_child_kill` (runs `taskkill /F /T /PID pid`),
`terminate` is `process.terminate()`, `sleep500` is the `sleep(0.5)` grace
wait, `kill` is `process.kill()`. -/
inductive Action
  | windowsChildKill
  | terminate
  | sleep500
  | kill
deriving DecidableEq

/-- Whether an action ends the whole process tree rather than the single
child pid: `taskkill /T` terminates the tree; `Popen.terminate` and
`Popen.kill` signal only the immediate child process. -/
def Action.isTreeAware : Action → Bool
  | Action.windowsChildKill => true
  | _ => false

/-- The two file sinks `command_runner` may open (lines 170 and 181). -/
inductive SinkId
  | stdoutSink
  | stderrSink
deriving DecidableEq

/-- Observable side effects of one `command_runner` call. -/
inductive Eff
  | openSink (s : SinkId)
  | closeSink (s : SinkId)
  | writeSink (s : SinkId) (data : String)
  | logErrorEff (msg : String)
  | logDebugEff (msg : String)
  | act (a : Action)
deriving DecidableEq

/-- What one `output_queue.get(...)` call in `_poll_process` can produce:
a decoded string chunk, the `None` item that `_read_pipe` puts for a missing
stream (string concatenation with it raises `TypeError`, line 294), or a
`queue.Empty` timeout. -/
inductive DrainEvent
  | chunk (s : String)
  | nullItem
  | empty
deriving DecidableEq

/-- A queue event inside the poll loop: a drain result, or a
`KeyboardInterrupt` raised while blocked in `output_queue.get` (line 297). -/
inductive QEvent
  | drain (d : DrainEvent)
  | interrupt
deriving DecidableEq

/-- One iteration of the `while process.poll() is None` loop (lines 286-310):
the queue event obtained, the elapsed wall-clock seconds at the timeout check
of line 300, and whether `process.poll()` at line 308 still reports the child
alive after `terminate()` and the 0.5 s grace sleep. -/
structure LoopIter where
  ev : QEvent
  elapsed : Nat
  aliveAfterTerm : Bool
deriving DecidableEq

/-- Environment trace of one `_poll_process` run: the loop iterations that
happened while `process.poll()` was `None`, the exit code `process.poll()`
returns once the loop ends (line 312), and the result of the final
`output_queue.get(timeout=10)` drain (line 318). -/
structure PollTrace where
  iters : List LoopIter
  exitCode : Int
  finalDrain : DrainEvent
deriving DecidableEq

/-- First argument of the `TimeoutExpired` raised at line 335.  The source
passes the `process` handle there (`raise TimeoutExpired(process, timeout,
output)`), not the command; both possibilities are representable so that the
distinction is expressible. -/
inductive TimeoutCmdField
  | processHandle
  | commandSpec (c : String)
deriving DecidableEq

/-- Result of `_poll_process`: a normal return (line 336), the
`TimeoutExpired` raised at line 335, or the `KbdInterruptGetOutput` raised at
line 298. -/
inductive PollOutcome
  | ret (exitCode : Int) (output : String)
  | timeoutExpired (cmd : TimeoutCmdField) (timeout : Option Nat) (output : String)
  | kbdInterrupt (output : String)
deriving DecidableEq

/-- Result of the poll loop itself (before the final drain). -/
inductive LoopResult
  | done (output : String) (acts : List Action) (timeoutReached : Bool)
  | interrupted (output : String) (acts : List Action)
deriving DecidableEq

/-- `if timeout and (datetime.now() - begin_time).total_seconds() > timeout`
(lines 220 and 300): `None` and `0` are falsy in Python, and the comparison
is strict. -/
def timeoutHit (t : Option Nat) (elapsed : Nat) : Bool :=
  match t with
  | none => false
  | some v => (v != 0) && decide (v < elapsed)

/-- The termination escalation of lines 301-309: tree-kill utility on
Windows, then `terminate()`, then a 0.5 s grace sleep, then `kill()` only if
`process.poll()` is still `None`. -/
def killSeq (iw alive : Bool) : List Action :=
  (if iw then [Action.windowsChildKill] else [])
    ++ [Action.terminate, Action.sleep500]
    ++ (if alive then [Action.kill] else [])

/-- Effect of one drain result on the `output` accumulator:
`output += chunk`; `None` raises `TypeError`, `queue.Empty` is caught, both
leave `output` unchanged (lines 289-296 and 316-325). -/
def drainApply (d : DrainEvent) (out : String) : String :=
  match d with
  | DrainEvent.chunk s => out ++ s
  | DrainEvent.nullItem => out
  | DrainEvent.empty => out

/-- The `while process.poll() is None` loop of `_poll_process`
(lines 286-310), threaded mode: get one queue event (a `KeyboardInterrupt`
there is re-raised as `KbdInterruptGetOutput` carrying the accumulated
output), then run the timeout check, recording kill actions; the
`timeout_reached` flag is sticky. -/
def pollLoop (iw : Bool) (t : Option Nat) :
    List LoopIter → String → Bool → LoopResult
  | [], out, reached => LoopResult.done out [] reached
  | it :: rest, out, reached =>
    match it.ev with
    | QEvent.interrupt => LoopResult.interrupted out []
    | QEvent.drain d =>
      let out1 := drainApply d out
      if timeoutHit t it.elapsed then
        match pollLoop iw t rest out1 true with
        | LoopResult.done o a r2 =>
            LoopResult.done o (killSeq iw it.aliveAfterTerm ++ a) r2
        | LoopResult.interrupted o a =>
            LoopResult.interrupted o (killSeq iw it.aliveAfterTerm ++ a)
      else
        pollLoop iw t rest out1 reached

/-- `_poll_process` (lines 257-336), threaded mode: run the loop starting
from `output = ""` and `timeout_reached = False`; after the loop read the
exit code, do the final 10 s drain, and either raise
`TimeoutExpired(process, timeout, output)` (note: the *process handle* is
passed as the first argument) or return `(exit_code, output)`. -/
def pollProcess (iw : Bool) (t : Option Nat) (tr : PollTrace) :
    PollOutcome × List Action :=
  match pollLoop iw t tr.iters "" false with
  | LoopResult.interrupted o a => (PollOutcome.kbdInterrupt o, a)
  | LoopResult.done o a reached =>
    let o2 := drainApply tr.finalDrain o
    if reached then (PollOutcome.timeoutExpired TimeoutCmdField.processHandle t o2, a)
    else (PollOutcome.ret tr.exitCode o2, a)

/-- Byte-to-text decoding used by `_read_pipe` (lines 226-238).
`decodeWith` is `bytes.decode(encoding, errors=errors)` with the configured
errors policy; `none` models the decode raising (`TypeError`, line 229).
`decodeIgnore` is the fallback `bytes.decode(encoding, errors="ignore")`,
which drops undecodable bytes and is total. -/
structure DecodePolicy where
  decodeWith : List Nat → Option String
  decodeIgnore : List Nat → String

/-- `try: pipe_output.decode(encoding, errors=errors) except TypeError:
pipe_output.decode(encoding, errors="ignore")` (lines 227-231): the primary
decode, falling back to the byte-dropping decode if it raises. -/
def decodeChunk (P : DecodePolicy) (b : List Nat) : String :=
  match P.decodeWith b with
  | some s => s
  | none => P.decodeIgnore b

/-- What `process.communicate()` hands to `_read_pipe`: already-decoded text
when `Popen` was given `encoding` (Python >= 3.6, line 347), raw bytes on the
compatibility path (line 359). -/
inductive PipeData
  | text (s : String)
  | raw (b : List Nat)

/-- Lines 226-231: data from `communicate()` is decoded exactly once, and
only when it is bytes (`isinstance(pipe_output, bytes)`). -/
def decodePipeData (P : DecodePolicy) : PipeData → String
  | PipeData.text s => s
  | PipeData.raw b => decodeChunk P b

/-- The items `_read_pipe` puts on the queue in threaded mode with stderr
merged into stdout (lines 217-250): nothing if the timeout check at line 220
breaks first; otherwise one `communicate()` call yields `(data, None)`
(stderr is `subprocess.STDOUT`), the data is decoded once, and both items are
put on the queue; the next loop round hits a `ValueError` on the closed pipe,
which line 254 swallows, ending the thread. -/
def readPipeQueueItems (P : DecodePolicy) (timeoutAlreadyHit : Bool)
    (d : PipeData) : List (Option String) :=
  if timeoutAlreadyHit then []
  else [some (decodePipeData P d), none]

/-- Default of the `errors` kwarg (line 145): a replacement policy for
undecodable bytes. -/
def defaultErrorsPolicy : String := "backslashreplace"

/-- The errors policy of the second, byte-dropping decode (line 231). -/
def fallbackErrorsPolicy : String := "ignore"

/-- The `stdout` argument of `command_runner` (lines 162-177): `None`
(capture only), a file path, or a pipe/fd (live output). -/
inductive StdoutOpt
  | default
  | file (path : String)
  | pipe
deriving DecidableEq

/-- The `stderr` argument (lines 179-185): a file path opens a separate
sink; anything else merges stderr into stdout. -/
inductive StderrOpt
  | merged
  | file (path : String)
deriving DecidableEq

/-- The arguments of `command_runner` relevant to its result, with the
source's default values (line 95-107: `valid_exit_codes=None`,
`timeout=1800`, `stdout=None`, `stderr=None`). -/
structure Opts where
  command : String
  valid_exit_codes : Option (List Int) := none
  timeout : Option Nat := some 1800
  stdout : StdoutOpt := StdoutOpt.default
  stderr : StderrOpt := StderrOpt.merged

/-- What the `subprocess.Popen` call and the subsequent supervision can do,
as seen from the `try` block at line 338: spawn succeeds and the poll runs
over a trace, or one of the exception classes handled at lines 386-433 is
raised during spawn. -/
inductive SpawnOutcome
  | ok (tr : PollTrace)
  | fileNotFound (msg : String)
  | osError (msg : String)
  | calledProcessError (returncode : Int) (out : Option String)
  | otherExc (msg : String)

/-- Environment of one `command_runner` call: whether each `open(path,"wb")`
sink open (lines 170 and 181) raises (with which message), and the spawn
outcome. -/
structure Env where
  stdoutOpenFail : Option String := none
  stderrOpenFail : Option String := none
  spawn : SpawnOutcome

def stdoutToFile : StdoutOpt → Bool
  | StdoutOpt.file _ => true
  | _ => false

def stderrToFile : StderrOpt → Bool
  | StderrOpt.file _ => true
  | _ => false

/-- `str(timeout)` as used by `"...".format(timeout)`. -/
def pyStr (t : Option Nat) : String :=
  match t with
  | none => "None"
  | some v => toString v

/-- Line 413: the message logged at error level and written to the stdout
file sink on timeout. -/
def timeoutLogMessage (t : Option Nat) (c o : String) : String :=
  "Timeout " ++ pyStr t ++ " seconds expired for command \"" ++ c
    ++ "\" execution. Original output was: " ++ o

/-- Line 421: the output string returned on timeout. -/
def timeoutReturnOutput (t : Option Nat) (c o : String) : String :=
  "Timeout of " ++ pyStr t ++ " seconds expired for command \"" ++ c
    ++ "\" execution. Original output was: " ++ o

/-- Lines 381-385 and 393-397. -/
def returnedDebugMsg (c : String) (e : Int) : String :=
  "Command \"" ++ c ++ "\" returned with exit code \"" ++ toString e
    ++ "\". Command output was:"

/-- Lines 398-402. -/
def failedExitMsg (c : String) (e : Int) : String :=
  "Command \"" ++ c ++ "\" failed with exit code \"" ++ toString e
    ++ "\". Command output was:"

/-- Line 405. -/
def fileNotFoundMsg (c m : String) : String :=
  "Command \"" ++ c ++ "\" failed, file not found: " ++ m

/-- Line 410. -/
def osErrorMsg (c m : String) : String :=
  "Command \"" ++ c ++ "\" failed because of OS: " ++ m

/-- Lines 428-431. -/
def unknownFailureMsg (c m : String) : String :=
  "Command \"" ++ c ++ "\" failed for unknown reasons: " ++ m

/-- Line 373. -/
def interruptedOutput (o : String) : String :=
  "KeyboardInterrupted. Partial output\n" ++ o

/-- Kill actions of the `KbdInterruptGetOutput` handler (lines 374-379). -/
def interruptKillActs (iw : Bool) : List Action :=
  (if iw then [Action.windowsChildKill] else []) ++ [Action.kill]

/-- The `try ... except` body of `command_runner` (lines 338-433), given the
spawn outcome: maps each exception class to its `(exit_code, output)` pair
and records the logging / kill / file-write effects in order. -/
def runBody (iw : Bool) (opts : Opts) (sp : SpawnOutcome) :
    List Eff × Int × String :=
  match sp with
  | SpawnOutcome.ok tr =>
    match pollProcess iw opts.timeout tr with
    | (PollOutcome.ret ec o, acts) =>
        (acts.map Eff.act ++ [Eff.logDebugEff (returnedDebugMsg opts.command ec)],
         ec, o)
    | (PollOutcome.kbdInterrupt o, acts) =>
        ((acts ++ interruptKillActs iw).map Eff.act
           ++ [Eff.logDebugEff (returnedDebugMsg opts.command (-252))],
         -252, interruptedOutput o)
    | (PollOutcome.timeoutExpired _ _ o, acts) =>
        let msg := timeoutLogMessage opts.timeout opts.command o
        (acts.map Eff.act ++ [Eff.logErrorEff msg]
           ++ (if stdoutToFile opts.stdout
               then [Eff.writeSink SinkId.stdoutSink msg] else []),
         -254, timeoutReturnOutput opts.timeout opts.command o)
  | SpawnOutcome.fileNotFound m =>
      ([Eff.logErrorEff (fileNotFoundMsg opts.command m)], -253, m)
  | SpawnOutcome.osError m =>
      ([Eff.logErrorEff (osErrorMsg opts.command m)], -253, m)
  | SpawnOutcome.calledProcessError rc out =>
      let output := match out with
        | some s => s
        | none => "command_runner: Could not obtain output from command."
      ((if (match opts.valid_exit_codes with
            | some l => l
            | none => [0]).contains rc
        then [Eff.logDebugEff (returnedDebugMsg opts.command rc)] else [])
         ++ [Eff.logErrorEff (failedExitMsg opts.command rc),
             Eff.logErrorEff output],
       rc, output)
  | SpawnOutcome.otherExc m =>
      ([Eff.logErrorEff (unknownFailureMsg opts.command m)], -255, m)

/-- `command_runner` (lines 95-442).  The sink opens at lines 170 and 181
happen *before* the `try` block, so a failing `open` propagates to the
caller (`Except.error`); otherwise the body result is produced, the
`finally` block (lines 434-438) closes the opened file sinks, and line 440
logs the output.  Returns the effect list and either the escaped exception
or `(exit_code, output)`. -/
def commandRunner (iw : Bool) (opts : Opts) (env : Env) :
    List Eff × Except String (Int × String) :=
  match opts.stdout, env.stdoutOpenFail with
  | StdoutOpt.file _, some m => ([], Except.error m)
  | _, _ =>
    let openStdout :=
      if stdoutToFile opts.stdout then [Eff.openSink SinkId.stdoutSink] else []
    match opts.stderr, env.stderrOpenFail with
    | StderrOpt.file _, some m => (openStdout, Except.error m)
    | _, _ =>
      let openStderr :=
        if stderrToFile opts.stderr then [Eff.openSink SinkId.stderrSink] else []
      match runBody iw opts env.spawn with
      | (bodyEffs, ec, out) =>
        let closes :=
          (if stdoutToFile opts.stdout then [Eff.closeSink SinkId.stdoutSink] else [])
            ++ (if stderrToFile opts.stderr then [Eff.closeSink SinkId.stderrSink] else [])
        (openStdout ++ openStderr ++ bodyEffs ++ closes ++ [Eff.logDebugEff out],
         Except.ok (ec, out))

/-! ### Derived trace functions used to state the theorems -/

/-- Concatenation of a list of strings in order. -/
def concatStrs : List String → String
  | [] => ""
  | s :: rest => s ++ concatStrs rest

/-- The string chunks delivered by the loop iterations, in order. -/
def iterChunks : List LoopIter → List String
  | [] => []
  | it :: rest =>
    match it.ev with
    | QEvent.drain (DrainEvent.chunk s) => s :: iterChunks rest
    | _ => iterChunks rest

/-- The string chunk of the final drain, if any. -/
def drainChunkList : DrainEvent → List String
  | DrainEvent.chunk s => [s]
  | _ => []

/-- All chunks a trace delivers, in the order received. -/
def traceChunks (tr : PollTrace) : List String :=
  iterChunks tr.iters ++ drainChunkList tr.finalDrain

/-- No `KeyboardInterrupt` occurs in the iterations. -/
def noInterrupt (iters : List LoopIter) : Bool :=
  iters.all (fun it =>
    match it.ev with
    | QEvent.interrupt => false
    | _ => true)

/-- Whether some iteration's timeout check fires. -/
def anyHit (t : Option Nat) (iters : List LoopIter) : Bool :=
  iters.any (fun it => timeoutHit t it.elapsed)

/-- The kill actions a run of the loop emits: one escalation sequence per
iteration whose timeout check fires. -/
def killActs (iw : Bool) (t : Option Nat) : List LoopIter → List Action
  | [] => []
  | it :: rest =>
    (if timeoutHit t it.elapsed then killSeq iw it.aliveAfterTerm else [])
      ++ killActs iw t rest

/-- `s` occurs as a contiguous substring of `t` (stated on the character
lists). -/
def strContainsP (s sub : String) : Prop :=
  ∃ a b, s.data = a ++ (sub.data ++ b)

/-! ### Helper lemmas -/

theorem strAppend_assoc (a b c : String) : a ++ b ++ c = a ++ (b ++ c) := by
  apply String.ext
  simp [String.data_append, List.append_assoc]

theorem strAppend_empty (a : String) : a ++ "" = a := by
  apply String.ext
  simp [String.data_append]

theorem strEmpty_append (a : String) : "" ++ a = a := by
  apply String.ext
  simp [String.data_append]

theorem concatStrs_append (l1 l2 : List String) :
    concatStrs (l1 ++ l2) = concatStrs l1 ++ concatStrs l2 := by
  induction l1 with
  | nil => simp [concatStrs, strEmpty_append]
  | cons s rest ih => simp [concatStrs, ih, strAppend_assoc]

theorem drainApply_eq (d : DrainEvent) (out : String) :
    drainApply d out = out ++ concatStrs (drainChunkList d) := by
  cases d <;> simp [drainApply, drainChunkList, concatStrs, strAppend_empty]

theorem killActs_nil_of_no_hit (iw : Bool) (t : Option Nat)
    (iters : List LoopIter) (h : anyHit t iters = false) :
    killActs iw t iters = [] := by
  induction iters with
  | nil => simp [killActs]
  | cons it rest ih =>
      rw [anyHit, List.any_cons, Bool.or_eq_false_iff] at h
      rw [killActs, h.1, ih (by rw [anyHit]; exact h.2)]
      simp

/-- Master lemma for interrupt-free runs of the poll loop: the output
accumulates every delivered chunk in order, the kill actions are exactly one
escalation sequence per timeout hit, and the `timeout_reached` flag is the
disjunction of the per-iteration checks. -/
theorem pollLoop_no_interrupt (iw : Bool) (t : Option Nat)
    (iters : List LoopIter) :
    ∀ (out : String) (reached : Bool),
      noInterrupt iters = true →
      pollLoop iw t iters out reached =
        LoopResult.done (out ++ concatStrs (iterChunks iters))
          (killActs iw t iters) (reached || anyHit t iters) := by
  induction iters with
  | nil =>
      intro out reached _
      simp [pollLoop, iterChunks, concatStrs, killActs, anyHit, strAppend_empty]
  | cons it rest ih =>
      intro out reached h
      rw [noInterrupt, List.all_cons, Bool.and_eq_true] at h
      have hrest : noInterrupt rest = true := h.2
      cases hev : it.ev with
      | interrupt => rw [hev] at h; exact absurd h.1 (by simp)
      | drain d =>
          cases hhit : timeoutHit t it.elapsed with
          | true =>
              rw [pollLoop, hev]
              simp only [hhit, if_true]
              rw [ih (drainApply d out) true hrest]
              have hout : drainApply d out ++ concatStrs (iterChunks rest)
                  = out ++ concatStrs (iterChunks (it :: rest)) := by
                cases d <;>
                  simp [drainApply, iterChunks, hev, concatStrs, strAppend_assoc]
              rw [hout]
              simp [killActs, hhit, anyHit, List.any_cons]
          | false =>
              rw [pollLoop, hev]
              simp only [hhit, if_false]
              rw [ih (drainApply d out) reached hrest]
              have hout : drainApply d out ++ concatStrs (iterChunks rest)
                  = out ++ concatStrs (iterChunks (it :: rest)) := by
                cases d <;>
                  simp [drainApply, iterChunks, hev, concatStrs, strAppend_assoc]
              rw [hout]
              simp [killActs, hhit, anyHit, List.any_cons]

/-- Master lemma for interrupted runs: a `KeyboardInterrupt` at some
iteration makes the loop signal `interrupted` carrying exactly the output
accumulated before it, with the kill actions of the preceding iterations. -/
theorem pollLoop_interrupt (iw : Bool) (t : Option Nat)
    (pre : List LoopIter) (it : LoopIter) (rest : List LoopIter)
    (hev : it.ev = QEvent.interrupt) :
    ∀ (out : String) (reached : Bool),
      noInterrupt pre = true →
      pollLoop iw t (pre ++ it :: rest) out reached =
        LoopResult.interrupted (out ++ concatStrs (iterChunks pre))
          (killActs iw t pre) := by
  induction pre with
  | nil =>
      intro out reached _
      rw [List.nil_append, pollLoop, hev]
      simp [iterChunks, concatStrs, killActs, strAppend_empty]
  | cons p ps ih =>
      intro out reached h
      rw [noInterrupt, List.all_cons, Bool.and_eq_true] at h
      have hps : noInterrupt ps = true := h.2
      cases hpev : p.ev with
      | interrupt => rw [hpev] at h; exact absurd h.1 (by simp)
      | drain d =>
          cases hhit : timeoutHit t p.elapsed with
          | true =>
              rw [List.cons_append, pollLoop, hpev]
              simp only [hhit, if_true]
              rw [ih (drainApply d out) true hps]
              have hout : drainApply d out ++ concatStrs (iterChunks ps)
                  = out ++ concatStrs (iterChunks (p :: ps)) := by
                cases d <;>
                  simp [drainApply, iterChunks, hpev, concatStrs, strAppend_assoc]
              rw [hout]
              simp [killActs, hhit]
          | false =>
              rw [List.cons_append, pollLoop, hpev]
              simp only [hhit, if_false]
              rw [ih (drainApply d out) reached hps]
              have hout : drainApply d out ++ concatStrs (iterChunks ps)
                  = out ++ concatStrs (iterChunks (p :: ps)) := by
                cases d <;>
                  simp [drainApply, iterChunks, hpev, concatStrs, strAppend_assoc]
              rw [hout]
              simp [killActs, hhit]

/-- `_poll_process` on an interrupt-free trace with no timeout hit returns
`(exit_code, all chunks in order)` and performs no kill action. -/
theorem pollProcess_ret (iw : Bool) (t : Option Nat) (tr : PollTrace)
    (hni : noInterrupt tr.iters = true) (hnh : anyHit t tr.iters = false) :
    pollProcess iw t tr =
      (PollOutcome.ret tr.exitCode (concatStrs (traceChunks tr)), []) := by
  rw [pollProcess, pollLoop_no_interrupt iw t tr.iters "" false hni,
      killActs_nil_of_no_hit iw t tr.iters hnh]
  simp [hnh, drainApply_eq, strEmpty_append, traceChunks, concatStrs_append]

/-- `_poll_process` on an interrupt-free trace with a timeout hit raises
`TimeoutExpired(process, timeout, output)`: the first field is the process
handle, and the output carries every chunk received. -/
theorem pollProcess_timeout (iw : Bool) (t : Option Nat) (tr : PollTrace)
    (hni : noInterrupt tr.iters = true) (hh : anyHit t tr.iters = true) :
    pollProcess iw t tr =
      (PollOutcome.timeoutExpired TimeoutCmdField.processHandle t
        (concatStrs (traceChunks tr)), killActs iw t tr.iters) := by
  rw [pollProcess, pollLoop_no_interrupt iw t tr.iters "" false hni]
  simp [hh, drainApply_eq, strEmpty_append, traceChunks, concatStrs_append]

/-- `_poll_process` on a trace whose first interrupt happens after the
interrupt-free prefix `pre` raises `KbdInterruptGetOutput` carrying exactly
the output accumulated over `pre`. -/
theorem pollProcess_interrupted (iw : Bool) (t : Option Nat)
    (pre : List LoopIter) (it : LoopIter) (rest : List LoopIter)
    (ec : Int) (fd : DrainEvent)
    (hev : it.ev = QEvent.interrupt) (hpre : noInterrupt pre = true) :
    pollProcess iw t ⟨pre ++ it :: rest, ec, fd⟩ =
      (PollOutcome.kbdInterrupt (concatStrs (iterChunks pre)),
       killActs iw t pre) := by
  simp only [pollProcess]
  rw [pollLoop_interrupt iw t pre it rest hev "" false hpre]
  simp [strEmpty_append]

theorem anyHit_none (iters : List LoopIter) : anyHit none iters = false := by
  simp [anyHit, timeoutHit]

theorem strContainsP_refl (s : String) : strContainsP s s :=
  ⟨[], [], by simp⟩

theorem strContainsP_appendLeft (s t u : String) (h : strContainsP t u) :
    strContainsP (s ++ t) u := by
  obtain ⟨a, b, hd⟩ := h
  exact ⟨s.data ++ a, b, by simp [String.data_append, hd, List.append_assoc]⟩

theorem strContainsP_appendRight (s t u : String) (h : strContainsP s u) :
    strContainsP (s ++ t) u := by
  obtain ⟨a, b, hd⟩ := h
  exact ⟨a, b ++ t.data, by simp [String.data_append, hd, List.append_assoc]⟩

/-- Normal form of a `command_runner` call whose sink opens succeed: the
body result is wrapped between the sink opens, the `finally` closes and the
final debug log, and the call returns `(exit_code, output)`. -/
theorem commandRunner_open_ok (iw : Bool) (opts : Opts) (sp : SpawnOutcome) :
    commandRunner iw opts ⟨none, none, sp⟩ =
      ((if stdoutToFile opts.stdout then [Eff.openSink SinkId.stdoutSink] else [])
         ++ (if stderrToFile opts.stderr then [Eff.openSink SinkId.stderrSink] else [])
         ++ (runBody iw opts sp).1
         ++ ((if stdoutToFile opts.stdout then [Eff.closeSink SinkId.stdoutSink] else [])
             ++ (if stderrToFile opts.stderr then [Eff.closeSink SinkId.stderrSink] else []))
         ++ [Eff.logDebugEff (runBody iw opts sp).2.2],
       Except.ok ((runBody iw opts sp).2.1, (runBody iw opts sp).2.2)) := by
  obtain ⟨c, v, t, so, se⟩ := opts
  cases so <;> cases se <;> rfl

/-! ### Claims -/

/-- C1: for every command that spawns successfully and exits by itself with
real status 0, `run` returns `(0, output)` where output is exactly the text
the child wrote (stderr merged into stdout), decoded once with the
configured encoding, accumulated append-only in the order received, never
double-decoded, reordered, or lost.  First conjunct: over any interrupt-free
trace with no timeout hit and exit code 0, the call returns `(0, ·)` with
the output equal to the concatenation, in order, of every chunk the drain
delivered.  Second conjunct: when the delivered chunks are exactly what
`_read_pipe` put on the queue for the child's data, that output equals the
child's data decoded exactly once. -/
theorem c1_success_exact_output (iw : Bool) (c : String)
    (v : Option (List Int)) (t : Option Nat) (P : DecodePolicy) (d : PipeData)
    (tr : PollTrace)
    (hni : noInterrupt tr.iters = true)
    (hnh : anyHit t tr.iters = false)
    (hec : tr.exitCode = 0) :
    (commandRunner iw ⟨c, v, t, StdoutOpt.default, StderrOpt.merged⟩
        ⟨none, none, SpawnOutcome.ok tr⟩).2
      = Except.ok (0, concatStrs (traceChunks tr))
  ∧ (traceChunks tr = (readPipeQueueItems P false d).filterMap id →
      concatStrs (traceChunks tr) = decodePipeData P d) := by
  constructor
  · rw [commandRunner_open_ok]
    simp [runBody, pollProcess_ret iw t tr hni hnh, hec]
  · intro hd
    rw [hd]
    simp [readPipeQueueItems, concatStrs, strAppend_empty]

theorem c1_success_exact_output_witness :
    (commandRunner false ⟨"cat README.md", none, some 1800,
        StdoutOpt.default, StderrOpt.merged⟩
      ⟨none, none, SpawnOutcome.ok
        ⟨[⟨QEvent.drain (DrainEvent.chunk "line one\n"), 1, false⟩], 0,
         DrainEvent.empty⟩⟩).2
      = Except.ok (0, "line one\n") := by
  have h := c1_success_exact_output false "cat README.md" none (some 1800)
    ⟨fun _ => none, fun _ => ""⟩ (PipeData.text "line one\n")
    ⟨[⟨QEvent.drain (DrainEvent.chunk "line one\n"), 1, false⟩], 0, DrainEvent.empty⟩
    (by decide) (by decide) rfl
  rw [h.1, h.2 (by decide)]
  rfl

/-- C4: for every command whose executable is missing (`FileNotFoundError`)
or whose spawn is rejected by the operating system (`OSError`/`IOError`),
`run` returns exit code -253 with the full exception text as the output
string, instead of propagating the failure. -/
theorem c4_launch_failure_sentinel (iw : Bool) (c : String)
    (v : Option (List Int)) (t : Option Nat) (m : String) :
    (commandRunner iw ⟨c, v, t, StdoutOpt.default, StderrOpt.merged⟩
        ⟨none, none, SpawnOutcome.fileNotFound m⟩).2 = Except.ok (-253, m)
  ∧ (commandRunner iw ⟨c, v, t, StdoutOpt.default, StderrOpt.merged⟩
        ⟨none, none, SpawnOutcome.osError m⟩).2 = Except.ok (-253, m) := by
  constructor <;> rfl

/-- C8: decode failures on arbitrary bytes never abort draining: the
primary decode runs with the default replacement errors policy
(`"backslashreplace"`), and if it raises, the fallback decode with
`"ignore"` drops undecodable bytes; an empty or `None` chunk from a drain
attempt leaves the output accumulator unchanged instead of raising a type
error out of the supervisor (the `TypeError` on `None` and `queue.Empty`
are both swallowed by the poll loop). -/
theorem c8_decode_never_aborts (P : DecodePolicy) (b : List Nat) :
    (∀ s, P.decodeWith b = some s → decodeChunk P b = s)
  ∧ (P.decodeWith b = none → decodeChunk P b = P.decodeIgnore b)
  ∧ (∀ out, drainApply DrainEvent.nullItem out = out
        ∧ drainApply DrainEvent.empty out = out)
  ∧ (∀ (iw : Bool) (t : Option Nat) (rest : List LoopIter) (out : String)
        (reached : Bool) (it : LoopIter),
      it.ev = QEvent.drain DrainEvent.nullItem →
      timeoutHit t it.elapsed = false →
      pollLoop iw t (it :: rest) out reached = pollLoop iw t rest out reached)
  ∧ defaultErrorsPolicy = "backslashreplace"
  ∧ fallbackErrorsPolicy = "ignore" := by
  refine ⟨?_, ?_, ?_, ?_, rfl, rfl⟩
  · intro s hs
    rw [decodeChunk, hs]
  · intro hn
    rw [decodeChunk, hn]
  · intro out
    exact ⟨rfl, rfl⟩
  · intro iw t rest out reached it hev hnh
    rw [pollLoop, hev]
    simp [hnh, drainApply]

theorem c8_decode_never_aborts_witness :
    decodeChunk ⟨fun _ => none, fun _ => "fallback"⟩ [200] = "fallback"
  ∧ drainApply DrainEvent.nullItem "acc" = "acc"
  ∧ pollLoop false (some 9) [⟨QEvent.drain DrainEvent.nullItem, 1, false⟩] "acc" false
      = pollLoop false (some 9) [] "acc" false :=
  ⟨(c8_decode_never_aborts ⟨fun _ => none, fun _ => "fallback"⟩ [200]).2.1 rfl,
   ((c8_decode_never_aborts ⟨fun _ => none, fun _ => "fallback"⟩ [200]).2.2.1 "acc").1,
   (c8_decode_never_aborts ⟨fun _ => none, fun _ => "fallback"⟩ [200]).2.2.2.1
     false (some 9) [] "acc" false ⟨QEvent.drain DrainEvent.nullItem, 1, false⟩
     rfl (by decide)⟩

/-- C9: when `timeout` is `None`, no timeout logic is applied: over any
interrupt-free trace the call returns the child's real exit code and the
full accumulated output, and the supervisor never initiates termination (no
kill-related effect is emitted). -/
theorem c9_none_disables_timeout (iw : Bool) (c : String)
    (v : Option (List Int)) (tr : PollTrace)
    (hni : noInterrupt tr.iters = true) :
    (commandRunner iw ⟨c, v, none, StdoutOpt.default, StderrOpt.merged⟩
        ⟨none, none, SpawnOutcome.ok tr⟩).2
      = Except.ok (tr.exitCode, concatStrs (traceChunks tr))
  ∧ (commandRunner iw ⟨c, v, none, StdoutOpt.default, StderrOpt.merged⟩
        ⟨none, none, SpawnOutcome.ok tr⟩).1.all
      (fun e => match e with | Eff.act _ => false | _ => true) = true := by
  have h := pollProcess_ret iw none tr hni (anyHit_none tr.iters)
  rw [commandRunner_open_ok]
  constructor
  · simp [runBody, h]
  · simp [runBody, h, stdoutToFile, stderrToFile]

theorem c9_none_disables_timeout_witness :
    (commandRunner false ⟨"ping 127.0.0.1 -c 4", none, none,
        StdoutOpt.default, StderrOpt.merged⟩
      ⟨none, none, SpawnOutcome.ok
        ⟨[⟨QEvent.drain (DrainEvent.chunk "64 bytes"), 100000, false⟩], 0,
         DrainEvent.empty⟩⟩).2
      = Except.ok (0, "64 bytes") := by
  have h := c9_none_disables_timeout false "ping 127.0.0.1 -c 4" none
    ⟨[⟨QEvent.drain (DrainEvent.chunk "64 bytes"), 100000, false⟩], 0,
     DrainEvent.empty⟩ (by decide)
  rw [h.1]
  rfl

/-- C10: when the caller omits the `timeout` argument, `command_runner` does
not run without a timeout: the default is 1800 seconds (signature default
`timeout=1800`), and once elapsed time exceeds 1800 the -254 timeout
behaviour applies to a run with the default options. -/
theorem c10_default_timeout_1800 (iw : Bool) (c : String) (tr : PollTrace)
    (hni : noInterrupt tr.iters = true)
    (hh : anyHit (some 1800) tr.iters = true) :
    ({ command := c } : Opts).timeout = some 1800
  ∧ (commandRunner iw { command := c } ⟨none, none, SpawnOutcome.ok tr⟩).2
      = Except.ok (-254,
          timeoutReturnOutput (some 1800) c (concatStrs (traceChunks tr))) := by
  refine ⟨rfl, ?_⟩
  rw [commandRunner_open_ok]
  simp [runBody, pollProcess_timeout iw (some 1800) tr hni hh, stdoutToFile]

theorem c10_default_timeout_1800_witness :
    (commandRunner false { command := "sleep 4000" }
        ⟨none, none, SpawnOutcome.ok
          ⟨[⟨QEvent.drain DrainEvent.empty, 1801, true⟩], -9, DrainEvent.empty⟩⟩).2
      = Except.ok (-254,
          "Timeout of 1800 seconds expired for command \"sleep 4000\" execution. Original output was: ") := by
  have h := c10_default_timeout_1800 false "sleep 4000"
    ⟨[⟨QEvent.drain DrainEvent.empty, 1801, true⟩], -9, DrainEvent.empty⟩
    (by decide) (by decide)
  rw [h.2]
  rfl

/-- C2 counterexample: at this concrete timed-out run with a stdout file
sink, the string written to the file sink (line 418, the logged message
"Timeout 1 seconds ...") is not the returned output ("Timeout of 1 seconds
..."), so the claim that *the same* notice is written to the file fails:
the returned notice is never written there. -/
theorem c2_counterexample :
    (commandRunner false ⟨"sleep 30", none, some 1, StdoutOpt.file "temp.test",
          StderrOpt.merged⟩
        ⟨none, none, SpawnOutcome.ok
          ⟨[⟨QEvent.drain (DrainEvent.chunk "partial"), 2, false⟩], -15,
           DrainEvent.empty⟩⟩).2
      = Except.ok (-254, timeoutReturnOutput (some 1) "sleep 30" "partial")
  ∧ Eff.writeSink SinkId.stdoutSink (timeoutLogMessage (some 1) "sleep 30" "partial")
      ∈ (commandRunner false ⟨"sleep 30", none, some 1, StdoutOpt.file "temp.test",
            StderrOpt.merged⟩
          ⟨none, none, SpawnOutcome.ok
            ⟨[⟨QEvent.drain (DrainEvent.chunk "partial"), 2, false⟩], -15,
             DrainEvent.empty⟩⟩).1
  ∧ Eff.writeSink SinkId.stdoutSink (timeoutReturnOutput (some 1) "sleep 30" "partial")
      ∉ (commandRunner false ⟨"sleep 30", none, some 1, StdoutOpt.file "temp.test",
            StderrOpt.merged⟩
          ⟨none, none, SpawnOutcome.ok
            ⟨[⟨QEvent.drain (DrainEvent.chunk "partial"), 2, false⟩], -15,
             DrainEvent.empty⟩⟩).1
  ∧ timeoutLogMessage (some 1) "sleep 30" "partial"
      ≠ timeoutReturnOutput (some 1) "sleep 30" "partial" := by
  refine ⟨rfl, by decide, by decide, by decide⟩

/-- C2 (amended): whenever the configured timeout elapses before the child
exits, `run` returns -254 with a generated timeout notice containing the
configured timeout value, the original command and the captured partial
output; if a stdout file sink was active, a notice with the same content is
also written to that file, its wording differing from the returned one in
one word ("Timeout N seconds" instead of "Timeout of N seconds"). -/
theorem c2_amended_timeout_notice (iw : Bool) (c p : String)
    (v : Option (List Int)) (t : Option Nat) (tr : PollTrace)
    (hni : noInterrupt tr.iters = true)
    (hh : anyHit t tr.iters = true) :
    (commandRunner iw ⟨c, v, t, StdoutOpt.file p, StderrOpt.merged⟩
        ⟨none, none, SpawnOutcome.ok tr⟩).2
      = Except.ok (-254, timeoutReturnOutput t c (concatStrs (traceChunks tr)))
  ∧ Eff.writeSink SinkId.stdoutSink (timeoutLogMessage t c (concatStrs (traceChunks tr)))
      ∈ (commandRunner iw ⟨c, v, t, StdoutOpt.file p, StderrOpt.merged⟩
          ⟨none, none, SpawnOutcome.ok tr⟩).1
  ∧ strContainsP (timeoutReturnOutput t c (concatStrs (traceChunks tr))) (pyStr t)
  ∧ strContainsP (timeoutReturnOutput t c (concatStrs (traceChunks tr))) c
  ∧ strContainsP (timeoutReturnOutput t c (concatStrs (traceChunks tr)))
      (concatStrs (traceChunks tr))
  ∧ strContainsP (timeoutLogMessage t c (concatStrs (traceChunks tr))) (pyStr t)
  ∧ strContainsP (timeoutLogMessage t c (concatStrs (traceChunks tr))) c
  ∧ strContainsP (timeoutLogMessage t c (concatStrs (traceChunks tr)))
      (concatStrs (traceChunks tr)) := by
  have h := pollProcess_timeout iw t tr hni hh
  refine ⟨?_, ?_, ?_, ?_, ?_, ?_, ?_, ?_⟩
  · rw [commandRunner_open_ok]
    simp [runBody, h]
  · rw [commandRunner_open_ok]
    simp only [runBody, h, stdoutToFile, stderrToFile]
    simp
  · exact strContainsP_appendRight _ _ _ (strContainsP_appendRight _ _ _
      (strContainsP_appendRight _ _ _ (strContainsP_appendRight _ _ _
        (strContainsP_appendLeft _ _ _ (strContainsP_refl _)))))
  · exact strContainsP_appendRight _ _ _ (strContainsP_appendRight _ _ _
      (strContainsP_appendLeft _ _ _ (strContainsP_refl _)))
  · exact strContainsP_appendLeft _ _ _ (strContainsP_refl _)
  · exact strContainsP_appendRight _ _ _ (strContainsP_appendRight _ _ _
      (strContainsP_appendRight _ _ _ (strContainsP_appendRight _ _ _
        (strContainsP_appendLeft _ _ _ (strContainsP_refl _)))))
  · exact strContainsP_appendRight _ _ _ (strContainsP_appendRight _ _ _
      (strContainsP_appendLeft _ _ _ (strContainsP_refl _)))
  · exact strContainsP_appendLeft _ _ _ (strContainsP_refl _)

theorem c2_amended_timeout_notice_witness :
    (commandRunner false ⟨"ping 127.0.0.1 -n 4", none, some 1,
        StdoutOpt.file "temp.test", StderrOpt.merged⟩
      ⟨none, none, SpawnOutcome.ok
        ⟨[⟨QEvent.drain DrainEvent.empty, 2, false⟩], -15, DrainEvent.empty⟩⟩).2
      = Except.ok (-254,
          "Timeout of 1 seconds expired for command \"ping 127.0.0.1 -n 4\" execution. Original output was: ") := by
  have h := c2_amended_timeout_notice false "ping 127.0.0.1 -n 4" "temp.test"
    none (some 1)
    ⟨[⟨QEvent.drain DrainEvent.empty, 2, false⟩], -15, DrainEvent.empty⟩
    (by decide) (by decide)
  rw [h.1]
  rfl

/-- C3 counterexample: at this concrete timed-out poll, the `TimeoutExpired`
signaled upward carries the *process handle* as its first field
(line 335: `raise TimeoutExpired(process, timeout, output)`), not the
command, so the payload is not `(command, timeout_value, partial_output)`. -/
theorem c3_counterexample :
    (pollProcess false (some 1)
        ⟨[⟨QEvent.drain (DrainEvent.chunk "partial"), 2, true⟩], -9,
         DrainEvent.empty⟩).1
      = PollOutcome.timeoutExpired TimeoutCmdField.processHandle (some 1) "partial"
  ∧ (pollProcess false (some 1)
        ⟨[⟨QEvent.drain (DrainEvent.chunk "partial"), 2, true⟩], -9,
         DrainEvent.empty⟩).1
      ≠ PollOutcome.timeoutExpired (TimeoutCmdField.commandSpec "sleep 30")
          (some 1) "partial" := by
  exact ⟨rfl, by decide⟩

/-- C3 (amended): when the timeout is exceeded inside the poll loop,
termination escalates in order — on Windows the tree-kill utility then a
terminate signal, elsewhere a direct terminate signal — followed by the
~500 ms grace wait, then a force kill only if the child is still alive; the
timeout condition signaled upward carries exactly `(process_handle,
timeout_value, partial_output)` (the process handle, not the command, is
passed as the first field). -/
theorem c3_amended_escalation (iw : Bool) (t : Option Nat) (tr : PollTrace)
    (hni : noInterrupt tr.iters = true)
    (hh : anyHit t tr.iters = true) :
    pollProcess iw t tr
      = (PollOutcome.timeoutExpired TimeoutCmdField.processHandle t
          (concatStrs (traceChunks tr)), killActs iw t tr.iters)
  ∧ (∀ alive : Bool, killSeq iw alive
      = (if iw then [Action.windowsChildKill] else [])
          ++ [Action.terminate, Action.sleep500]
          ++ (if alive then [Action.kill] else []))
  ∧ (∀ alive : Bool, (Action.kill ∈ killSeq iw alive ↔ alive = true)) := by
  refine ⟨pollProcess_timeout iw t tr hni hh, fun _ => rfl, ?_⟩
  intro alive
  cases iw <;> cases alive <;> simp [killSeq]

theorem c3_amended_escalation_witness :
    pollProcess true (some 1)
      ⟨[⟨QEvent.drain (DrainEvent.chunk "partial"), 2, true⟩], -9,
       DrainEvent.empty⟩
      = (PollOutcome.timeoutExpired TimeoutCmdField.processHandle (some 1) "partial",
         [Action.windowsChildKill, Action.terminate, Action.sleep500, Action.kill]) := by
  have h := c3_amended_escalation true (some 1)
    ⟨[⟨QEvent.drain (DrainEvent.chunk "partial"), 2, true⟩], -9, DrainEvent.empty⟩
    (by decide) (by decide)
  rw [h.1]
  rfl

/-- C5 counterexample: at this concrete interrupted run on a non-Windows
platform, the call returns -252 with the notice-prefixed partial output and
the child is force-killed, but no tree-aware kill is performed: the handler
(lines 374-379) only calls `process.kill()`, which signals the single child
pid, so the claim that the child is *tree-aware* force-killed fails. -/
theorem c5_counterexample :
    (commandRunner false ⟨"sh -c something", none, some 3600,
        StdoutOpt.default, StderrOpt.merged⟩
      ⟨none, none, SpawnOutcome.ok
        ⟨[⟨QEvent.drain (DrainEvent.chunk "partial"), 1, false⟩,
          ⟨QEvent.interrupt, 2, false⟩], 0, DrainEvent.empty⟩⟩).2
      = Except.ok (-252, "KeyboardInterrupted. Partial output\npartial")
  ∧ Eff.act Action.kill
      ∈ (commandRunner false ⟨"sh -c something", none, some 3600,
          StdoutOpt.default, StderrOpt.merged⟩
        ⟨none, none, SpawnOutcome.ok
          ⟨[⟨QEvent.drain (DrainEvent.chunk "partial"), 1, false⟩,
            ⟨QEvent.interrupt, 2, false⟩], 0, DrainEvent.empty⟩⟩).1
  ∧ (commandRunner false ⟨"sh -c something", none, some 3600,
        StdoutOpt.default, StderrOpt.merged⟩
      ⟨none, none, SpawnOutcome.ok
        ⟨[⟨QEvent.drain (DrainEvent.chunk "partial"), 1, false⟩,
          ⟨QEvent.interrupt, 2, false⟩], 0, DrainEvent.empty⟩⟩).1.all
      (fun e => match e with | Eff.act a => !a.isTreeAware | _ => true) = true := by
  exact ⟨rfl, by decide, by decide⟩

/-- C5 (amended): if the caller is interrupted while blocked on the output
queue during supervision, `run` catches the interruption and returns -252
with the partial output captured so far prefixed with an interruption
notice — the partial output is never lost — and the child is force-killed
before `run` returns (tree-aware via the taskkill utility on Windows, an
immediate-child-only `kill()` on other platforms). -/
theorem c5_amended_interrupt (iw : Bool) (c : String) (v : Option (List Int))
    (t : Option Nat) (pre : List LoopIter) (it : LoopIter)
    (rest : List LoopIter) (ec : Int) (fd : DrainEvent)
    (hev : it.ev = QEvent.interrupt)
    (hpre : noInterrupt pre = true) :
    (commandRunner iw ⟨c, v, t, StdoutOpt.default, StderrOpt.merged⟩
        ⟨none, none, SpawnOutcome.ok ⟨pre ++ it :: rest, ec, fd⟩⟩).2
      = Except.ok (-252,
          "KeyboardInterrupted. Partial output\n" ++ concatStrs (iterChunks pre))
  ∧ Eff.act Action.kill
      ∈ (commandRunner iw ⟨c, v, t, StdoutOpt.default, StderrOpt.merged⟩
          ⟨none, none, SpawnOutcome.ok ⟨pre ++ it :: rest, ec, fd⟩⟩).1
  ∧ (iw = true → Eff.act Action.windowsChildKill
      ∈ (commandRunner iw ⟨c, v, t, StdoutOpt.default, StderrOpt.merged⟩
          ⟨none, none, SpawnOutcome.ok ⟨pre ++ it :: rest, ec, fd⟩⟩).1) := by
  have h := pollProcess_interrupted iw t pre it rest ec fd hev hpre
  rw [commandRunner_open_ok]
  refine ⟨?_, ?_, ?_⟩
  · simp [runBody, h, interruptedOutput]
  · simp only [runBody, h, stdoutToFile, stderrToFile]
    simp [interruptKillActs]
  · intro hiw
    subst hiw
    simp only [runBody, h, stdoutToFile, stderrToFile]
    simp [interruptKillActs]

theorem c5_amended_interrupt_witness :
    (commandRunner true ⟨"sh -c something", none, some 3600,
        StdoutOpt.default, StderrOpt.merged⟩
      ⟨none, none, SpawnOutcome.ok
        ⟨[⟨QEvent.drain (DrainEvent.chunk "partial"), 1, false⟩,
          ⟨QEvent.interrupt, 2, false⟩], 0, DrainEvent.empty⟩⟩).2
      = Except.ok (-252, "KeyboardInterrupted. Partial output\npartial")
  ∧ Eff.act Action.windowsChildKill
      ∈ (commandRunner true ⟨"sh -c something", none, some 3600,
          StdoutOpt.default, StderrOpt.merged⟩
        ⟨none, none, SpawnOutcome.ok
          ⟨[⟨QEvent.drain (DrainEvent.chunk "partial"), 1, false⟩,
            ⟨QEvent.interrupt, 2, false⟩], 0, DrainEvent.empty⟩⟩).1 := by
  have h := c5_amended_interrupt true "sh -c something" none (some 3600)
    [⟨QEvent.drain (DrainEvent.chunk "partial"), 1, false⟩]
    ⟨QEvent.interrupt, 2, false⟩ [] 0 DrainEvent.empty rfl (by decide)
  exact ⟨h.1.trans rfl, h.2.2 rfl⟩

/-- C6 counterexample: the file-sink opens (lines 170 and 181) happen before
the `try` block, so at this concrete call where opening the stderr sink
raises, the exception escapes to the caller instead of being converted to a
`(exit_code, output)` tuple, and the already-opened stdout sink is never
closed. -/
theorem c6_counterexample :
    commandRunner false ⟨"cmd", none, some 1800, StdoutOpt.file "a.log",
        StderrOpt.file "b.log"⟩
      ⟨none, some "No such file or directory: b.log",
       SpawnOutcome.ok ⟨[], 0, DrainEvent.empty⟩⟩
      = ([Eff.openSink SinkId.stdoutSink],
         Except.error "No such file or directory: b.log")
  ∧ Eff.closeSink SinkId.stdoutSink
      ∉ (commandRunner false ⟨"cmd", none, some 1800, StdoutOpt.file "a.log",
          StderrOpt.file "b.log"⟩
        ⟨none, some "No such file or directory: b.log",
         SpawnOutcome.ok ⟨[], 0, DrainEvent.empty⟩⟩).1 := by
  exact ⟨rfl, by decide⟩

/-- C6 (amended): once the file sinks are open, `run` never lets an internal
failure escape: every failure raised during spawn or supervision is
converted to the `(exit_code, output)` tuple (any unexpected failure
becoming -255 with the stringified failure as output), and every file sink
opened during the call is closed on all those paths; however, a failure
raised while *opening* a sink itself propagates to the caller, and a stdout
sink already opened is then not closed (see the counterexample). -/
theorem c6_amended_containment (iw : Bool) (opts : Opts) (sp : SpawnOutcome) :
    (∃ res, (commandRunner iw opts ⟨none, none, sp⟩).2 = Except.ok res)
  ∧ (∀ m, sp = SpawnOutcome.otherExc m →
      (commandRunner iw opts ⟨none, none, sp⟩).2 = Except.ok (-255, m))
  ∧ (stdoutToFile opts.stdout = true →
      Eff.closeSink SinkId.stdoutSink ∈ (commandRunner iw opts ⟨none, none, sp⟩).1)
  ∧ (stderrToFile opts.stderr = true →
      Eff.closeSink SinkId.stderrSink ∈ (commandRunner iw opts ⟨none, none, sp⟩).1) := by
  rw [commandRunner_open_ok]
  refine ⟨⟨_, rfl⟩, ?_, ?_, ?_⟩
  · intro m hm
    subst hm
    simp [runBody]
  · intro hso
    simp [hso]
  · intro hse
    simp [hse]

theorem c6_amended_containment_witness :
    (commandRunner false ⟨"cmd", none, some 1800, StdoutOpt.file "a.log",
        StderrOpt.file "b.log"⟩
      ⟨none, none, SpawnOutcome.otherExc "unexpected failure"⟩).2
      = Except.ok (-255, "unexpected failure")
  ∧ Eff.closeSink SinkId.stdoutSink
      ∈ (commandRunner false ⟨"cmd", none, some 1800, StdoutOpt.file "a.log",
          StderrOpt.file "b.log"⟩
        ⟨none, none, SpawnOutcome.otherExc "unexpected failure"⟩).1
  ∧ Eff.closeSink SinkId.stderrSink
      ∈ (commandRunner false ⟨"cmd", none, some 1800, StdoutOpt.file "a.log",
          StderrOpt.file "b.log"⟩
        ⟨none, none, SpawnOutcome.otherExc "unexpected failure"⟩).1 := by
  have h := c6_amended_containment false
    ⟨"cmd", none, some 1800, StdoutOpt.file "a.log", StderrOpt.file "b.log"⟩
    (SpawnOutcome.otherExc "unexpected failure")
  exact ⟨h.2.1 "unexpected failure" rfl, h.2.2.1 rfl, h.2.2.2 rfl⟩

/-- C7 counterexample: at this concrete run the child exits with real status
3, outside the supplied `valid_exit_codes = [0, 1, 2]`; the exit status is
returned verbatim, but nothing is logged at error level — the normal exit
path (lines 369-385) never consults `valid_exit_codes` and logs only at
debug level — so the claim that the outcome is logged at error level
fails. -/
theorem c7_counterexample :
    (commandRunner false ⟨"cmd", some [0, 1, 2], some 3600,
        StdoutOpt.default, StderrOpt.merged⟩
      ⟨none, none, SpawnOutcome.ok
        ⟨[⟨QEvent.drain (DrainEvent.chunk "boom"), 1, false⟩], 3,
         DrainEvent.empty⟩⟩).2
      = Except.ok (3, "boom")
  ∧ (commandRunner false ⟨"cmd", some [0, 1, 2], some 3600,
        StdoutOpt.default, StderrOpt.merged⟩
      ⟨none, none, SpawnOutcome.ok
        ⟨[⟨QEvent.drain (DrainEvent.chunk "boom"), 1, false⟩], 3,
         DrainEvent.empty⟩⟩).1.all
      (fun e => match e with | Eff.logErrorEff _ => false | _ => true) = true := by
  exact ⟨rfl, by decide⟩

/-- C7 (amended): when the child runs and exits by itself, `run` returns the
real exit status verbatim (never converted to a sentinel) whatever
`valid_exit_codes` is — the normal exit path does not consult it — and the
outcome is logged at debug level only, never at error level; in particular,
with no set supplied a non-zero real exit is not treated as an error. -/
theorem c7_amended_verbatim_exit (iw : Bool) (c : String)
    (v : Option (List Int)) (t : Option Nat) (tr : PollTrace)
    (hni : noInterrupt tr.iters = true)
    (hnh : anyHit t tr.iters = false) :
    (commandRunner iw ⟨c, v, t, StdoutOpt.default, StderrOpt.merged⟩
        ⟨none, none, SpawnOutcome.ok tr⟩).2
      = Except.ok (tr.exitCode, concatStrs (traceChunks tr))
  ∧ (commandRunner iw ⟨c, v, t, StdoutOpt.default, StderrOpt.merged⟩
        ⟨none, none, SpawnOutcome.ok tr⟩).1.all
      (fun e => match e with | Eff.logErrorEff _ => false | _ => true) = true := by
  have h := pollProcess_ret iw t tr hni hnh
  rw [commandRunner_open_ok]
  constructor
  · simp [runBody, h]
  · simp [runBody, h, stdoutToFile, stderrToFile]

theorem c7_amended_verbatim_exit_witness :
    (commandRunner false ⟨"ping nonexistent_host", some [0, 1, 2], some 3600,
        StdoutOpt.default, StderrOpt.merged⟩
      ⟨none, none, SpawnOutcome.ok
        ⟨[⟨QEvent.drain (DrainEvent.chunk "unknown host"), 1, false⟩], 2,
         DrainEvent.empty⟩⟩).2
      = Except.ok (2, "unknown host") := by
  have h := c7_amended_verbatim_exit false "ping nonexistent_host"
    (some [0, 1, 2]) (some 3600)
    ⟨[⟨QEvent.drain (DrainEvent.chunk "unknown host"), 1, false⟩], 2,
     DrainEvent.empty⟩ (by decide) (by decide)
  rw [h.1]
  rfl

end CommandRunner
